import Mathlib

/-!
Verification of the `RbfoptUserBlackBox` adapter
(`src/rbfopt/rbfopt_user_black_box.py`).

The adapter wraps user data (dimension, bound arrays, integer-variable
indices, an exact objective callable and an optional fast/noisy callable)
into an object implementing the black-box interface.  We embed it
shallowly: Python `assert` failures and `NotImplementedError` become an
explicit error type, fallible methods return `Except`, points are lists of
rationals (the adapter never does arithmetic on the entries, it only
measures lengths and forwards the point to the user callables).
-/

namespace Rbfopt

/-- The two kinds of exception the adapter can raise itself:
`assert` failures and the `NotImplementedError` raised by
`evaluate_fast` when no fast evaluator was supplied. -/
inductive PyError where
  | assertionError
  | notImplementedError
deriving DecidableEq

/-- State of a constructed `RbfoptUserBlackBox` object: the fields stored
by `__init__`.  `obj_funct_fast = none` models Python `None`. -/
structure RbfoptUserBlackBox where
  dimension : Int
  var_lower : List ℚ
  var_upper : List ℚ
  integer_vars : List Int
  obj_funct : List ℚ → ℚ
  obj_funct_fast : Option (List ℚ → ℚ × ℚ × ℚ)

/-- `RbfoptUserBlackBox.__init__`: asserts that the bound arrays have
length `dimension` and that there are at most `dimension` integer
variables, then stores the data.  A failed assert aborts construction. -/
def RbfoptUserBlackBox.init (dimension : Int) (var_lower var_upper : List ℚ)
    (integer_vars : List Int) (obj_funct : List ℚ → ℚ)
    (obj_funct_fast : Option (List ℚ → ℚ × ℚ × ℚ)) :
    Except PyError RbfoptUserBlackBox :=
  if (var_lower.length : Int) = dimension ∧ (var_upper.length : Int) = dimension
      ∧ (integer_vars.length : Int) ≤ dimension then
    Except.ok ⟨dimension, var_lower, var_upper, integer_vars, obj_funct, obj_funct_fast⟩
  else
    Except.error PyError.assertionError

/-- `get_dimension`: returns the stored dimension. -/
def RbfoptUserBlackBox.get_dimension (bb : RbfoptUserBlackBox) : Int :=
  bb.dimension

/-- `get_var_lower`: returns the stored lower bounds. -/
def RbfoptUserBlackBox.get_var_lower (bb : RbfoptUserBlackBox) : List ℚ :=
  bb.var_lower

/-- `get_var_upper`: returns the stored upper bounds. -/
def RbfoptUserBlackBox.get_var_upper (bb : RbfoptUserBlackBox) : List ℚ :=
  bb.var_upper

/-- `get_integer_vars`: returns the stored integer-variable indices. -/
def RbfoptUserBlackBox.get_integer_vars (bb : RbfoptUserBlackBox) : List Int :=
  bb.integer_vars

/-- `evaluate`: asserts `len(x) == self.dimension`, then returns
`self.obj_funct(x)`. -/
def RbfoptUserBlackBox.evaluate (bb : RbfoptUserBlackBox) (x : List ℚ) :
    Except PyError ℚ :=
  if (x.length : Int) = bb.dimension then
    Except.ok (bb.obj_funct x)
  else
    Except.error PyError.assertionError

/-- `evaluate_fast`: asserts `len(x) == self.dimension` first; then, if
`self.obj_funct_fast is None`, raises `NotImplementedError`, otherwise
returns `self.obj_funct_fast(x)`. -/
def RbfoptUserBlackBox.evaluate_fast (bb : RbfoptUserBlackBox) (x : List ℚ) :
    Except PyError (ℚ × ℚ × ℚ) :=
  if (x.length : Int) = bb.dimension then
    match bb.obj_funct_fast with
    | none => Except.error PyError.notImplementedError
    | some f => Except.ok (f x)
  else
    Except.error PyError.assertionError

/-- `has_evaluate_fast`: returns `self.obj_funct_fast is not None`. -/
def RbfoptUserBlackBox.has_evaluate_fast (bb : RbfoptUserBlackBox) : Bool :=
  bb.obj_funct_fast.isSome

variable {α : Type}

/-- A heap of numpy arrays of element type `α`, addressed by position.
This refines the value-level model above just enough to express the
aliasing behaviour of `np.array`: the constructor argument and the stored
field are distinct arrays. -/
structure Store (α : Type) where
  arrays : List (List α)

/-- Contents of the array at id `i` (unused ids read as empty). -/
def Store.read (s : Store α) (i : Nat) : List α :=
  s.arrays.getD i []

/-- Allocate a new array holding `v`; returns its fresh id. -/
def Store.alloc (s : Store α) (v : List α) : Nat × Store α :=
  (s.arrays.length, ⟨s.arrays ++ [v]⟩)

/-- In-place mutation of the array at id `i`. -/
def Store.write (s : Store α) (i : Nat) (v : List α) : Store α :=
  ⟨s.arrays.set i v⟩

/-- `np.array(a)`: allocate a fresh array whose contents are copied from
the array at id `i`. -/
def np_array (s : Store α) (i : Nat) : Nat × Store α :=
  s.alloc (s.read i)

theorem Store.read_alloc_fresh (s : Store α) (v : List α) :
    (s.alloc v).2.read (s.alloc v).1 = v := by
  simp [Store.read, Store.alloc, List.getD_append_right s.arrays [v] [] _ le_rfl]

theorem Store.read_alloc_old (s : Store α) (v : List α) (i : Nat)
    (h : i < s.arrays.length) : (s.alloc v).2.read i = s.read i := by
  simp only [Store.read, Store.alloc]
  exact List.getD_append _ _ _ _ h

theorem Store.read_write_ne (s : Store α) (i j : Nat) (v : List α)
    (h : j ≠ i) : (s.write j v).read i = s.read i := by
  simp [Store.read, Store.write, List.getD_eq_getElem?_getD, List.getElem?_set_ne h]

/-- Heap-level state of a constructed `RbfoptUserBlackBox`: the bound and
integer arrays are stored by id into the two stores. -/
structure UserBlackBoxRef where
  dimension : Int
  var_lower : Nat
  var_upper : Nat
  integer_vars : Nat
  obj_funct : List ℚ → ℚ
  obj_funct_fast : Option (List ℚ → ℚ × ℚ × ℚ)

/-- `RbfoptUserBlackBox.__init__` at the heap level: after the length
asserts, each of `var_lower`, `var_upper`, `integer_vars` is passed
through `np.array`, allocating a fresh copy, and the fresh ids are
stored.  `sq` holds the rational-valued arrays, `si` the integer
arrays. -/
def UserBlackBoxRef.init (dimension : Int) (var_lower var_upper integer_vars : Nat)
    (obj_funct : List ℚ → ℚ) (obj_funct_fast : Option (List ℚ → ℚ × ℚ × ℚ))
    (sq : Store ℚ) (si : Store Int) :
    Except PyError (UserBlackBoxRef × Store ℚ × Store Int) :=
  if ((sq.read var_lower).length : Int) = dimension
      ∧ ((sq.read var_upper).length : Int) = dimension
      ∧ ((si.read integer_vars).length : Int) ≤ dimension then
    Except.ok
      (⟨dimension, (np_array sq var_lower).1,
        (np_array (np_array sq var_lower).2 var_upper).1,
        (np_array si integer_vars).1, obj_funct, obj_funct_fast⟩,
       (np_array (np_array sq var_lower).2 var_upper).2,
       (np_array si integer_vars).2)
  else
    Except.error PyError.assertionError

/-- `get_var_lower` at the heap level. -/
def UserBlackBoxRef.get_var_lower (bb : UserBlackBoxRef) (sq : Store ℚ) : List ℚ :=
  sq.read bb.var_lower

/-- `get_var_upper` at the heap level. -/
def UserBlackBoxRef.get_var_upper (bb : UserBlackBoxRef) (sq : Store ℚ) : List ℚ :=
  sq.read bb.var_upper

/-- `get_integer_vars` at the heap level. -/
def UserBlackBoxRef.get_integer_vars (bb : UserBlackBoxRef) (si : Store Int) : List Int :=
  si.read bb.integer_vars

/-- The observable calls of the black-box interface of an
`RbfoptUserBlackBox` object. -/
inductive BBCall where
  | get_dimension
  | get_var_lower
  | get_var_upper
  | get_integer_vars
  | evaluate (x : List ℚ)
  | evaluate_fast (x : List ℚ)
  | has_evaluate_fast

/-- The possible results of a single interface call, failing results
included. -/
inductive BBResult where
  | int (n : Int)
  | arr (l : List ℚ)
  | arrI (l : List Int)
  | val (e : Except PyError ℚ)
  | triple (e : Except PyError (ℚ × ℚ × ℚ))
  | bool (b : Bool)

/-- Method dispatch in state-passing form: each method body (translated
above from the source) only reads fields of `self` and contains no
assignment to `self`, so the post-call object state is the receiver. -/
def RbfoptUserBlackBox.call (bb : RbfoptUserBlackBox) :
    BBCall → BBResult × RbfoptUserBlackBox
  | BBCall.get_dimension => (BBResult.int bb.get_dimension, bb)
  | BBCall.get_var_lower => (BBResult.arr bb.get_var_lower, bb)
  | BBCall.get_var_upper => (BBResult.arr bb.get_var_upper, bb)
  | BBCall.get_integer_vars => (BBResult.arrI bb.get_integer_vars, bb)
  | BBCall.evaluate x => (BBResult.val (bb.evaluate x), bb)
  | BBCall.evaluate_fast x => (BBResult.triple (bb.evaluate_fast x), bb)
  | BBCall.has_evaluate_fast => (BBResult.bool bb.has_evaluate_fast, bb)

/-- Run a sequence of interface calls, threading the object state. -/
def RbfoptUserBlackBox.runCalls (bb : RbfoptUserBlackBox) :
    List BBCall → RbfoptUserBlackBox
  | [] => bb
  | c :: cs => ((bb.call c).2).runCalls cs

/-- A concrete adapter without a fast evaluator (dimension 1). -/
def noFastBB : RbfoptUserBlackBox :=
  ⟨1, [0], [1], [], fun _ => 0, none⟩

/-- A concrete adapter with a fast evaluator whose returned triple
violates the bound-sign invariant (dimension 1). -/
def fastBB : RbfoptUserBlackBox :=
  ⟨1, [0], [1], [], fun _ => 0, some fun _ => (5, 1, -1)⟩

/-- A concrete adapter of dimension 5. -/
def dim5BB : RbfoptUserBlackBox :=
  ⟨5, [0, 0, 0, 0, 0], [1, 1, 1, 1, 1], [], fun _ => 0, none⟩

/-- C1: a successfully constructed adapter with exact evaluator `f`,
evaluated at a point of the right length, returns exactly `f x`. -/
theorem c1_evaluate_pass_through (d : Int) (lb ub : List ℚ) (iv : List Int)
    (f : List ℚ → ℚ) (ff : Option (List ℚ → ℚ × ℚ × ℚ)) (bb : RbfoptUserBlackBox)
    (h : RbfoptUserBlackBox.init d lb ub iv f ff = Except.ok bb)
    (x : List ℚ) (hx : (x.length : Int) = d) :
    bb.evaluate x = Except.ok (f x) := by
  unfold RbfoptUserBlackBox.init at h
  split at h
  · injection h with h
    subst h
    simp [RbfoptUserBlackBox.evaluate, hx]
  · exact absurd h (by simp)

/-- Witness for C1: the spec's concrete scenario, `dimension = 2`,
`evaluate([1/2, 1/2])` returns the sum of squares `1/2`. -/
theorem c1_evaluate_pass_through_witness :
    (RbfoptUserBlackBox.mk 2 [-1, -1] [1, 1] []
        (fun p => p.getD 0 0 * p.getD 0 0 + p.getD 1 0 * p.getD 1 0) none).evaluate
      [1/2, 1/2] = Except.ok (1/2) := by
  have h := c1_evaluate_pass_through 2 [-1, -1] [1, 1] []
    (fun p => p.getD 0 0 * p.getD 0 0 + p.getD 1 0 * p.getD 1 0) none
    (RbfoptUserBlackBox.mk 2 [-1, -1] [1, 1] []
      (fun p => p.getD 0 0 * p.getD 0 0 + p.getD 1 0 * p.getD 1 0) none)
    rfl [1/2, 1/2] (by decide)
  rw [h]
  norm_num

/-- C2 counterexample: on an adapter without a fast evaluator,
`evaluate_fast` called with a point of the wrong length fails with the
length-mismatch assertion error, not the capability error. -/
theorem c2_counterexample :
    RbfoptUserBlackBox.init 1 [0] [1] [] (fun _ => 0) none = Except.ok noFastBB ∧
    noFastBB.obj_funct_fast = none ∧
    noFastBB.evaluate_fast [] = Except.error PyError.assertionError ∧
    PyError.assertionError ≠ PyError.notImplementedError :=
  ⟨rfl, rfl, rfl, by decide⟩

/-- C2 amended: on an adapter without a fast evaluator, `evaluate_fast`
fails with the capability error when `len(x) == dimension`, and with the
length-mismatch assertion error when `len(x) != dimension` (the length
assert runs first). -/
theorem c2_amended_capability_error (bb : RbfoptUserBlackBox)
    (h : bb.obj_funct_fast = none) (x : List ℚ) :
    bb.evaluate_fast x =
      Except.error (if (x.length : Int) = bb.dimension
        then PyError.notImplementedError else PyError.assertionError) := by
  by_cases hx : (x.length : Int) = bb.dimension <;>
    simp [RbfoptUserBlackBox.evaluate_fast, hx, h]

/-- Witness for C2's amended claim: on the dimension-1 adapter without a
fast evaluator, a length-1 point yields the capability error. -/
theorem c2_amended_capability_error_witness :
    noFastBB.evaluate_fast [0] = Except.error PyError.notImplementedError :=
  c2_amended_capability_error noFastBB rfl [0]

/-- C3: `has_evaluate_fast` returns `true` iff a fast evaluator was
supplied (non-`None`) at construction; it is a pure function of the
stored state, hence identical on every call. -/
theorem c3_has_evaluate_fast_iff (d : Int) (lb ub : List ℚ) (iv : List Int)
    (f : List ℚ → ℚ) (ff : Option (List ℚ → ℚ × ℚ × ℚ)) (bb : RbfoptUserBlackBox)
    (h : RbfoptUserBlackBox.init d lb ub iv f ff = Except.ok bb) :
    bb.has_evaluate_fast = ff.isSome := by
  unfold RbfoptUserBlackBox.init at h
  split at h
  · injection h with h
    subst h
    rfl
  · exact absurd h (by simp)

/-- Witness for C3: a constructed adapter with a fast evaluator reports
`has_evaluate_fast = true`. -/
theorem c3_has_evaluate_fast_iff_witness :
    fastBB.has_evaluate_fast
      = (Option.some (fun _ => (5, 1, -1)) : Option (List ℚ → ℚ × ℚ × ℚ)).isSome :=
  c3_has_evaluate_fast_iff 1 [0] [1] [] (fun _ => 0)
    (some fun _ => (5, 1, -1)) fastBB rfl

/-- C4: construction with a lower-bound array of the wrong length, an
upper-bound array of the wrong length, or more integer variables than the
dimension, fails with the assertion error and produces no object. -/
theorem c4_construction_fails (d : Int) (lb ub : List ℚ) (iv : List Int)
    (f : List ℚ → ℚ) (ff : Option (List ℚ → ℚ × ℚ × ℚ))
    (h : (lb.length : Int) ≠ d ∨ (ub.length : Int) ≠ d ∨ (iv.length : Int) > d) :
    RbfoptUserBlackBox.init d lb ub iv f ff = Except.error PyError.assertionError := by
  unfold RbfoptUserBlackBox.init
  rw [if_neg]
  rintro ⟨h1, h2, h3⟩
  rcases h with h | h | h <;> omega

/-- Witness for C4: constructing with `dimension = 1` but an empty
lower-bound array fails. -/
theorem c4_construction_fails_witness :
    RbfoptUserBlackBox.init 1 [] [1] [] (fun _ => 0) none
      = Except.error PyError.assertionError :=
  c4_construction_fails 1 [] [1] [] (fun _ => 0) none (Or.inl (by decide))

/-- C5: `evaluate` with a point of the wrong length fails with the
assertion error on every adapter, whatever its dimension. -/
theorem c5_evaluate_length_mismatch (bb : RbfoptUserBlackBox) (x : List ℚ)
    (h : (x.length : Int) ≠ bb.dimension) :
    bb.evaluate x = Except.error PyError.assertionError := by
  simp [RbfoptUserBlackBox.evaluate, h]

/-- Witness for C5: the dimension-5 adapter rejects a length-2 point. -/
theorem c5_evaluate_length_mismatch_witness :
    dim5BB.evaluate [0, 0] = Except.error PyError.assertionError :=
  c5_evaluate_length_mismatch dim5BB [0, 0] (by decide)

/-- C6: on an adapter with fast evaluator `g`, `evaluate_fast` at a point
of the right length returns exactly `g x`, with no validation of the
returned triple's bound-sign invariant. -/
theorem c6_evaluate_fast_pass_through (bb : RbfoptUserBlackBox)
    (g : List ℚ → ℚ × ℚ × ℚ) (h : bb.obj_funct_fast = some g)
    (x : List ℚ) (hx : (x.length : Int) = bb.dimension) :
    bb.evaluate_fast x = Except.ok (g x) := by
  simp [RbfoptUserBlackBox.evaluate_fast, hx, h]

/-- Witness for C6: the adapter whose fast evaluator returns the
invariant-violating triple `(5, 1, -1)` passes it through unchanged. -/
theorem c6_evaluate_fast_pass_through_witness :
    fastBB.evaluate_fast [0] = Except.ok (5, 1, -1) :=
  c6_evaluate_fast_pass_through fastBB (fun _ => (5, 1, -1)) rfl [0] (by decide)

/-- C7: for every successful construction, `get_dimension` returns the
supplied dimension and both bound getters return arrays of that length. -/
theorem c7_getters_consistent (d : Int) (lb ub : List ℚ) (iv : List Int)
    (f : List ℚ → ℚ) (ff : Option (List ℚ → ℚ × ℚ × ℚ)) (bb : RbfoptUserBlackBox)
    (h : RbfoptUserBlackBox.init d lb ub iv f ff = Except.ok bb) :
    bb.get_dimension = d ∧
    (bb.get_var_lower.length : Int) = bb.get_dimension ∧
    (bb.get_var_upper.length : Int) = bb.get_dimension := by
  unfold RbfoptUserBlackBox.init at h
  split at h
  · injection h with h
    subst h
    refine ⟨rfl, ?_, ?_⟩ <;> simp_all [RbfoptUserBlackBox.get_var_lower,
      RbfoptUserBlackBox.get_var_upper, RbfoptUserBlackBox.get_dimension]
  · exact absurd h (by simp)

/-- Witness for C7: the dimension-1 construction. -/
theorem c7_getters_consistent_witness :
    noFastBB.get_dimension = 1 ∧
    (noFastBB.get_var_lower.length : Int) = noFastBB.get_dimension ∧
    (noFastBB.get_var_upper.length : Int) = noFastBB.get_dimension :=
  c7_getters_consistent 1 [0] [1] [] (fun _ => 0) none noFastBB rfl

/-- C8: running any sequence of interface calls, succeeding or failing,
leaves the adapter's stored state unchanged. -/
theorem c8_no_mutation (bb : RbfoptUserBlackBox) (calls : List BBCall) :
    bb.runCalls calls = bb := by
  induction calls generalizing bb with
  | nil => rfl
  | cons c cs ih => cases c <;> exact ih bb

/-- C10: the constructor performs no positivity check on `dimension`:
for any non-positive dimension with matching arrays, construction
succeeds and `get_dimension` returns that non-positive value. -/
theorem c10_nonpositive_dimension (d : Int) (_hd : d ≤ 0)
    (lb ub : List ℚ) (iv : List Int)
    (f : List ℚ → ℚ) (ff : Option (List ℚ → ℚ × ℚ × ℚ))
    (hlb : (lb.length : Int) = d) (hub : (ub.length : Int) = d)
    (hiv : (iv.length : Int) ≤ d) :
    RbfoptUserBlackBox.init d lb ub iv f ff
      = Except.ok ⟨d, lb, ub, iv, f, ff⟩ ∧
    (RbfoptUserBlackBox.mk d lb ub iv f ff).get_dimension = d := by
  constructor
  · simp [RbfoptUserBlackBox.init, hlb, hub, hiv]
  · rfl

/-- Witness for C10: construction succeeds at `dimension = 0` with empty
arrays, and the constructed object reports dimension `0`. -/
theorem c10_nonpositive_dimension_witness :
    RbfoptUserBlackBox.init 0 [] [] [] (fun _ => 0) none
      = Except.ok ⟨0, [], [], [], fun _ => 0, none⟩ ∧
    (RbfoptUserBlackBox.mk 0 [] [] [] (fun _ => 0) none).get_dimension = 0 :=
  c10_nonpositive_dimension 0 (by decide) [] [] [] (fun _ => 0) none
    (by decide) (by decide) (by decide)

/-- C9: construction copies the supplied arrays via `np.array`, so the
getters return arrays element-wise equal to the ones supplied, and
mutating any pre-existing array (in particular the caller's originals)
after construction leaves the getters' results unchanged. -/
theorem c9_defensive_copies (d : Int) (li ui ii : Nat)
    (f : List ℚ → ℚ) (ff : Option (List ℚ → ℚ × ℚ × ℚ))
    (sq : Store ℚ) (si : Store Int)
    (bb : UserBlackBoxRef) (sq2 : Store ℚ) (si2 : Store Int)
    (h : UserBlackBoxRef.init d li ui ii f ff sq si = Except.ok (bb, sq2, si2))
    (_hli : li < sq.arrays.length) (hui : ui < sq.arrays.length)
    (_hii : ii < si.arrays.length) :
    (bb.get_var_lower sq2 = sq.read li ∧ bb.get_var_upper sq2 = sq.read ui ∧
      bb.get_integer_vars si2 = si.read ii) ∧
    (∀ j v, j < sq.arrays.length →
      bb.get_var_lower (sq2.write j v) = sq.read li ∧
      bb.get_var_upper (sq2.write j v) = sq.read ui) ∧
    (∀ j w, j < si.arrays.length →
      bb.get_integer_vars (si2.write j w) = si.read ii) := by
  unfold UserBlackBoxRef.init at h
  split at h
  case isFalse => exact absurd h (by simp)
  injection h with h
  injection h with hbb h
  injection h with hsq hsi
  subst hbb hsq hsi
  have hfst : (np_array sq li).1 = sq.arrays.length := rfl
  have hlen1 : (np_array sq li).2.arrays.length = sq.arrays.length + 1 := by
    simp [np_array, Store.alloc]
  have hsnd : (np_array (np_array sq li).2 ui).1 = sq.arrays.length + 1 := by
    rw [show (np_array (np_array sq li).2 ui).1 = (np_array sq li).2.arrays.length
      from rfl, hlen1]
  have hread_lo : (np_array (np_array sq li).2 ui).2.read (np_array sq li).1
      = sq.read li := by
    rw [show np_array (np_array sq li).2 ui
        = (np_array sq li).2.alloc ((np_array sq li).2.read ui) from rfl]
    rw [Store.read_alloc_old _ _ _ (by rw [hfst, hlen1]; omega)]
    exact Store.read_alloc_fresh sq (sq.read li)
  have hread_hi : (np_array (np_array sq li).2 ui).2.read
      (np_array (np_array sq li).2 ui).1 = sq.read ui := by
    rw [show np_array (np_array sq li).2 ui
        = (np_array sq li).2.alloc ((np_array sq li).2.read ui) from rfl]
    rw [Store.read_alloc_fresh]
    exact Store.read_alloc_old sq (sq.read li) ui hui
  have hread_iv : (np_array si ii).2.read (np_array si ii).1 = si.read ii :=
    Store.read_alloc_fresh si (si.read ii)
  refine ⟨⟨hread_lo, hread_hi, hread_iv⟩, ?_, ?_⟩
  · intro j v hj
    constructor
    · show ((np_array (np_array sq li).2 ui).2.write j v).read sq.arrays.length
        = sq.read li
      rw [Store.read_write_ne _ _ _ _ (show j ≠ sq.arrays.length by omega)]
      exact hread_lo
    · show ((np_array (np_array sq li).2 ui).2.write j v).read
          (np_array (np_array sq li).2 ui).1 = sq.read ui
      rw [Store.read_write_ne _ _ _ _
        (show j ≠ (np_array (np_array sq li).2 ui).1 by rw [hsnd]; omega)]
      exact hread_hi
  · intro j w hj
    show ((np_array si ii).2.write j w).read si.arrays.length = si.read ii
    rw [Store.read_write_ne _ _ _ _ (show j ≠ si.arrays.length by omega)]
    exact hread_iv

/-- Witness for C9: a dimension-1 construction from a two-array rational
store; overwriting the caller's original lower-bound array with `[9]`
leaves `get_var_lower` returning the originally supplied contents. -/
theorem c9_defensive_copies_witness :
    (UserBlackBoxRef.mk 1 2 3 1 (fun _ => 0) none).get_var_lower
        ((Store.mk [[0], [1], [0], [1]]).write 0 [9])
      = (Store.mk [[(0 : ℚ)], [1]]).read 0 :=
  ((c9_defensive_copies 1 0 1 0 (fun _ => 0) none ⟨[[0], [1]]⟩ ⟨[[]]⟩
      ⟨1, 2, 3, 1, fun _ => 0, none⟩ ⟨[[0], [1], [0], [1]]⟩ ⟨[[], []]⟩
      rfl (by decide) (by decide) (by decide)).2.1 0 [9] (by decide)).1

end Rbfopt
